import Mathlib

set_option autoImplicit false

namespace SerdeYml

/-- Modelled from the spec: the `Path` enum of `serde_yml::modules::path`.
The defining module `src/modules/path.rs` is absent from the reviewed sources;
only its test suite `tests/modules/test_path.rs` is present.  Per the data
model section of the spec, a path chain is a closed set of five variants, each
non-root variant holding a back-reference to a parent chain; `Seq` carries an
unsigned index (modelled as `Nat`, since only its decimal rendering matters)
and `Map` carries a text key. -/
inductive Path where
  | Root : Path
  | Seq (parent : Path) (index : Nat) : Path
  | Map (parent : Path) (key : String) : Path
  | Alias (parent : Path) : Path
  | Unknown (parent : Path) : Path
  deriving DecidableEq, Repr

/-- Modelled from the spec: the `Display` rendering of a path chain (the
`render` operation).  The spec requires the recursive rule to reproduce the
multi-level scenarios of its testable-properties section exactly, and states
that each `Alias` or non-root ancestor injects a literal separating dot even
when immediately followed by another separator-producing variant; the test
suite in `tests/modules/test_path.rs` pins the same outputs.  Accordingly a
non-root ancestor contributes its own rendering followed by a dot, and a root
ancestor contributes nothing; brackets around sequence indices are emitted
with a literal leading backslash. -/
def render : Path → String
  | .Root => "."
  | .Seq p n => (match p with | .Root => "" | q => render q ++ ".") ++ "\\[" ++ Nat.repr n ++ "\\]"
  | .Map p k => (match p with | .Root => "" | q => render q ++ ".") ++ k
  | .Alias p => (match p with | .Root => "" | q => render q ++ ".")
  | .Unknown p => (match p with | .Root => "" | q => render q ++ ".") ++ "?"

/-- The string a node supplies when acting as an ancestor of another node:
empty for `Root`, and the node's own rendering followed by a literal dot for
every other variant.  This is the inner parent helper of the modelled
rendering. -/
def parentContribution : Path → String
  | .Root => ""
  | q => render q ++ "."

/-- The ancestor contribution exactly as the specification text defines it:
empty for `Root`, and the node's own rendering (with no trailing separator)
for every other variant.  Kept separate from `parentContribution` so the two
can be compared. -/
def specContribution : Path → String
  | .Root => ""
  | q => render q

/-- Modelled from the spec: structural equality of path chains, recursive
through parents, comparing variant and payload at every depth (the derived
`PartialEq` of the missing `Path` enum, observed through `assert_eq!` in the
test suite). -/
def pathEq : Path → Path → Bool
  | .Root, .Root => true
  | .Seq p i, .Seq q j => pathEq p q && i == j
  | .Map p k, .Map q l => pathEq p q && k == l
  | .Alias p, .Alias q => pathEq p q
  | .Unknown p, .Unknown q => pathEq p q
  | _, _ => false

/-- One iteration step of the while loop inside `truncate` in
`src/utilities/directory.rs`, fuelled by the number of remaining iterations.
A filesystem path is embedded as the list of its components in order.  The
Rust loop condition calls `path.components().next_back()` on a freshly built
iterator at every iteration, so every iteration reads the last component of
the original path (the iterator is never consumed); the loop body pushes that
component onto `truncated` and breaks once the number of pushed components
reaches `length`.  Since each iteration pushes exactly one component, the
running `count` of the source equals `acc.length`, and the loop performs at
most `length` iterations, so fuel `length` is exact. -/
def truncateLoop (path : List String) (length : Nat) : Nat → List String → List String
  | 0, acc => acc
  | fuel + 1, acc =>
    match path.getLast? with
    | none => acc
    | some c =>
      if acc.length + 1 = length then acc ++ [c]
      else truncateLoop path length fuel (acc ++ [c])

/-- The `truncate` function of `src/utilities/directory.rs`: a requested
length of zero returns `None` at once; otherwise the while loop runs (see
`truncateLoop`), and the result is returned only when the final count equals
the requested length, rendered by joining the accumulated components with the
path separator (`PathBuf` display of pushed components). -/
def truncate (path : List String) (length : Nat) : Option String :=
  if length = 0 then none
  else
    let truncated := truncateLoop path length length []
    if truncated.length = length then some (String.intercalate ("/") truncated)
    else none

/-- Abstract view of the filesystem state consulted by `directory` in
`src/utilities/directory.rs`: whether the target path exists, whether it is a
directory, and the outcome of `fs::create_dir_all` were it invoked (`none`
for success, `some e` for failure with message `e`). -/
structure FsState where
  pathExists : Bool
  isDir : Bool
  createError : Option String
  deriving DecidableEq, Repr

/-- Observable outcome of a call to `directory`: the returned
`Result<(), String>` together with whether `fs::create_dir_all` was
attempted. -/
structure DirOutcome where
  result : Except String Unit
  createAttempted : Bool
  deriving Repr

/-- The `directory` function of `src/utilities/directory.rs`: if the path
exists and is not a directory, return an error naming `name`; if it exists
and is a directory, fall through to `Ok` without creating anything;
otherwise attempt `fs::create_dir_all`, returning `Ok` on success and an
error message on failure. -/
def directory (fs : FsState) (name : String) : DirOutcome :=
  if fs.pathExists then
    if !fs.isDir then
      ⟨.error ("❌ Error: " ++ name ++ " is not a directory."), false⟩
    else
      ⟨.ok (), false⟩
  else
    match fs.createError with
    | none => ⟨.ok (), true⟩
    | some e => ⟨.error ("❌ Error: Cannot create " ++ name ++ " directory: " ++ e), true⟩

theorem render_seq (p : Path) (n : Nat) :
    render (.Seq p n) = parentContribution p ++ "\\[" ++ Nat.repr n ++ "\\]" := by
  cases p <;> rfl

theorem render_map (p : Path) (k : String) :
    render (.Map p k) = parentContribution p ++ k := by
  cases p <;> rfl

end SerdeYml

namespace SerdeYml

/-- C5 counterexample: Root is not the only case where a node's own rendering
differs from its ancestor contribution: the non-root chain Alias over Root
renders to the empty string but contributes a single dot as an ancestor. -/
theorem c5_counterexample :
    Path.Alias .Root ≠ Path.Root ∧
    render (.Alias .Root) ≠ parentContribution (.Alias .Root) := by
  decide

/-- C5 amended: render of the Root chain is the one-character string `.`,
while the ancestor contribution of Root is the empty string; rendering and
ancestor contribution also differ at every non-root node, whose contribution
is its own rendering followed by a literal dot. -/
theorem c5_render_root (q : Path) (hq : q ≠ Path.Root) :
    render .Root = "." ∧ parentContribution .Root = "" ∧
    parentContribution q = render q ++ "." ∧ parentContribution q ≠ render q := by
  have hcontrib : parentContribution q = render q ++ "." := by
    cases q
    · exact absurd rfl hq
    all_goals rfl
  refine ⟨rfl, rfl, hcontrib, ?_⟩
  rw [hcontrib]
  intro h
  have hlen := congrArg String.length h
  simp [String.length_append] at hlen
  exact absurd hlen (by decide)

/-- C5 amended, witnessed at the non-root chain Alias over Root. -/
theorem c5_render_root_witness :
    render Path.Root = "." ∧ parentContribution Path.Root = "" ∧
    parentContribution (.Alias .Root) = render (.Alias .Root) ++ "." ∧
    parentContribution (.Alias .Root) ≠ render (.Alias .Root) :=
  c5_render_root (.Alias .Root) (by decide)

/-- C6: for every unsigned integer n, rendering Seq over Root yields the
decimal of n wrapped in backslash-escaped brackets; in particular 42 renders
as an escaped bracketed 42 and the maximum 64-bit unsigned value renders with
all twenty digits. -/
theorem c6_render_seq_root :
    (∀ n : Nat, render (.Seq .Root n) = "\\[" ++ Nat.repr n ++ "\\]") ∧
    render (.Seq .Root 42) = "\\[42\\]" ∧
    render (.Seq .Root 18446744073709551615) = "\\[18446744073709551615\\]" :=
  ⟨fun _ => rfl, by decide, by decide⟩

/-- C7: for single-link chains over Root, a Map renders as its key alone (the
empty key giving the empty string), an Alias renders as the empty string, and
an Unknown renders as a question mark. -/
theorem c7_single_link :
    (∀ k : String, render (.Map .Root k) = k) ∧
    render (.Map .Root ("")) = "" ∧
    render (.Alias .Root) = "" ∧
    render (.Unknown .Root) = "?" :=
  ⟨fun _ => rfl, rfl, rfl, rfl⟩

/-- C3: the chain Root, Seq 1, Map first, Seq 2, Map second, Alias, Unknown
renders to the exact scenario-B string, with a doubled dot before the trailing
question mark. -/
theorem c3_scenario_b :
    render (.Unknown (.Alias (.Map (.Seq (.Map (.Seq .Root 1) ("first")) 2) ("second")))) =
      "\\[1\\].first.\\[2\\].second..?" := by
  decide

/-- C1 counterexample: the claim that render of a Seq node is the parent
contribution, defined as the bare rendering of a non-root parent, followed
directly by the bracketed index with no separator, is false at the chain
Seq over Seq over Root: the rendering inserts a dot separator. -/
theorem c1_counterexample :
    render (.Seq (.Seq .Root 1) 42) ≠ specContribution (.Seq .Root 1) ++ "\\[42\\]" := by
  decide

/-- C1 amended: render of a Seq node is the parent contribution followed
directly by the backslash-escaped bracketed decimal index, where the
contribution of Root is empty and the contribution of every non-root parent is
its own rendering followed by a literal dot separator. -/
theorem c1_seq_rendering (p : Path) (n : Nat) (q : Path) (hq : q ≠ .Root) :
    render (.Seq p n) = parentContribution p ++ "\\[" ++ Nat.repr n ++ "\\]" ∧
    parentContribution .Root = "" ∧
    parentContribution q = render q ++ "." := by
  refine ⟨render_seq p n, rfl, ?_⟩
  cases q
  · exact absurd rfl hq
  all_goals rfl

/-- C1 amended, witnessed at the chain Seq over Seq over Root with indices 1
and 42. -/
theorem c1_seq_rendering_witness :
    render (.Seq (.Seq .Root 1) 42) =
        parentContribution (.Seq .Root 1) ++ "\\[" ++ Nat.repr 42 ++ "\\]" ∧
    parentContribution .Root = "" ∧
    parentContribution (.Seq .Root 1) = render (.Seq .Root 1) ++ "." :=
  c1_seq_rendering (.Seq .Root 1) 42 (.Seq .Root 1) (by decide)

/-- C4: the structural comparison of two chains returns true exactly when the
chains are equal as values, i.e. when they have the identical variant sequence
and identical payloads at every depth, recursively through parents. -/
theorem c4_structural_equality : ∀ a b : Path, pathEq a b = true ↔ a = b := by
  intro a
  induction a with
  | Root => intro b; cases b <;> simp [pathEq]
  | Seq p i ih => intro b; cases b <;> simp [pathEq, ih]
  | Map p k ih => intro b; cases b <;> simp [pathEq, ih]
  | Alias p ih => intro b; cases b <;> simp [pathEq, ih]
  | Unknown p ih => intro b; cases b <;> simp [pathEq, ih]

/-- C8: rendering is a deterministic function of the chain value: two
invocations of render on equal chains yield identical output. -/
theorem c8_render_deterministic (p q : Path) (h : p = q) : render p = render q := by
  rw [h]

/-- C8 witness at the Root chain. -/
theorem c8_render_deterministic_witness : render .Root = render .Root :=
  c8_render_deterministic .Root .Root rfl

/-- C9: a requested length of zero never produces a truncated path, whatever
the components of the input path. -/
theorem c9_truncate_zero (path : List String) : truncate path 0 = none := by
  simp [truncate]

/-- C2: evaluating `truncate` at the two-component path home/user with
requested length 2.  Because the loop rebuilds the components iterator on
every iteration, it pushes the last component twice, yielding user/user
rather than the last two components home/user in their original order. -/
theorem c2_truncate_repeats_last :
    truncate ["home", "user"] 2 = some ("user/user") ∧
    truncate ["home", "user"] 2 ≠ some ("home/user") := by
  constructor <;> decide

/-- C10: when the target path already exists, `directory` returns success
without attempting creation if it is a directory, and returns an error whose
message contains `name` (still without attempting creation) if it is not a
directory; creation is attempted exactly when the path does not exist. -/
theorem c10_directory_existing (fs : FsState) (name : String)
    (hex : fs.pathExists = true) :
    (fs.isDir = true → directory fs name = ⟨.ok (), false⟩) ∧
    (fs.isDir = false →
      (directory fs name).createAttempted = false ∧
      ∃ pre post, (directory fs name).result = .error (pre ++ name ++ post)) ∧
    (∀ fs2 : FsState, fs2.pathExists = false →
      (directory fs2 name).createAttempted = true) := by
  obtain ⟨pe, dirFlag, ce⟩ := fs
  simp only at hex
  subst hex
  refine ⟨?_, ?_, ?_⟩
  · intro hd
    simp only at hd
    subst hd
    rfl
  · intro hd
    simp only at hd
    subst hd
    exact ⟨rfl, "❌ Error: ", " is not a directory.", rfl⟩
  · intro fs2 h2
    obtain ⟨pe2, dirFlag2, ce2⟩ := fs2
    simp only at h2
    subst h2
    cases ce2 <;> rfl

/-- C10 witness: an existing directory returns success without creation, an
existing non-directory returns an error containing the name, and a missing
path triggers a creation attempt. -/
theorem c10_directory_existing_witness :
    ((FsState.mk true true none).isDir = true →
      directory (FsState.mk true true none) ("logs") = ⟨.ok (), false⟩) ∧
    ((FsState.mk true true none).isDir = false →
      (directory (FsState.mk true true none) ("logs")).createAttempted = false ∧
      ∃ pre post,
        (directory (FsState.mk true true none) ("logs")).result =
          .error (pre ++ "logs" ++ post)) ∧
    (∀ fs2 : FsState, fs2.pathExists = false →
      (directory fs2 ("logs")).createAttempted = true) :=
  c10_directory_existing (FsState.mk true true none) ("logs") rfl

end SerdeYml
